import Mathlib

/-!
Verification of the pronunciation-tutor example (python/pronunciation_tutor.py).

Scores coming from the assessment service are JSON numbers; we embed them as
rationals so that the threshold comparisons of the source are exact.  Python
dictionaries with defaulted lookups (d.get(key, default)) are embedded as
structures with Option fields, read through Option.getD at each use site,
mirroring each get call of the source.
-/

/-- A phoneme entry of an assessment word: p.get with phoneme and score keys. -/
structure PhonemeInput where
  phoneme : Option String
  score : Option ℚ
deriving DecidableEq

/-- A word entry of an assessment: w.get with word, score and phonemes keys. -/
structure WordInput where
  word : Option String
  score : Option ℚ
  phonemes : Option (List PhonemeInput)
deriving DecidableEq

/-- The assessment payload consumed by print_feedback. -/
structure AssessmentInput where
  overallScore : Option ℚ
  words : Option (List WordInput)
deriving DecidableEq

/-- The transcription payload consumed by print_feedback (only text is read). -/
structure TranscriptionInput where
  text : Option String
deriving DecidableEq

/-- The five grade labels produced by print_feedback. -/
inductive Grade where
  | Excellent
  | Good
  | Fair
  | NeedsWork
  | KeepPracticing
deriving DecidableEq

/-- Grade banding of print_feedback, lines 160-169 of the source:
descending if-chain on the overall score. -/
def gradeOf (overall : ℚ) : Grade :=
  if overall ≥ 90 then Grade.Excellent
  else if overall ≥ 75 then Grade.Good
  else if overall ≥ 60 then Grade.Fair
  else if overall ≥ 40 then Grade.NeedsWork
  else Grade.KeepPracticing

/-- Closing message printed when overall is at least 90. -/
def harderTip : String := "Great job! Try a harder sentence."

/-- Closing message printed when overall is at least 70 but below 90. -/
def reviewTip : String := "Good progress! Focus on the starred (*) words above."

/-- Closing message printed when overall is below 70. -/
def slowTip : String := "Tip: Listen to the reference audio again, then try speaking more slowly."

/-- Closing-tip selection of print_feedback, lines 206-211 of the source. -/
def closingTipOf (overall : ℚ) : String :=
  if overall ≥ 90 then harderTip
  else if overall ≥ 70 then reviewTip
  else slowTip

/-- The weak-phoneme triples contributed by one word: the inner loop of
print_feedback (lines 190-195), appending (word, phoneme, score) whenever
the phoneme score is below 60. -/
def wordWeaks (w : WordInput) : List (String × String × ℚ) :=
  (w.phonemes.getD []).foldl
    (fun acc p =>
      if p.score.getD 0 < 60 then
        acc ++ [(w.word.getD "", p.phoneme.getD "", p.score.getD 0)]
      else acc)
    []

/-- The report computed by print_feedback (lines 149-213), with the print
statements stripped: overall score, grade, per-word rows with the starred
flag (score below 70), weak phonemes and the closing tip.  The transcription
and the reference text are printed but never influence these fields. -/
structure FeedbackReport where
  overallScore : ℚ
  grade : Grade
  perWord : List (WordInput × Bool)
  weakPhonemes : List (String × String × ℚ)
  closingTip : String
deriving DecidableEq

/-- The feedback engine: the computation performed by print_feedback on its
three arguments. -/
def evaluate (assessment : AssessmentInput) (_transcription : TranscriptionInput)
    (_reference : String) : FeedbackReport :=
  { overallScore := assessment.overallScore.getD 0
    grade := gradeOf (assessment.overallScore.getD 0)
    perWord :=
      (assessment.words.getD []).foldl
        (fun acc w => acc ++ [(w, decide (w.score.getD 0 < 70))]) []
    weakPhonemes :=
      (assessment.words.getD []).foldl (fun acc w => acc ++ wordWeaks w) []
    closingTip := closingTipOf (assessment.overallScore.getD 0) }

/-- Word-major, phoneme-minor enumeration of every (word, phoneme, score)
triple of an assessment, in input order. -/
def allTriples (words : List WordInput) : List (String × String × ℚ) :=
  words.flatMap fun w =>
    (w.phonemes.getD []).map fun p => (w.word.getD "", p.phoneme.getD "", p.score.getD 0)

/-!
Session controller: the body of the while-loop of main (lines 230-282),
embedded as a function from the raw menu input and the outcomes of the
external collaborators (synthesis, recording, transcription, assessment)
to a trace recording which steps ran, what was selected, and the state the
controller is left in.
-/

/-- The fixed practice-sentence catalog (SENTENCES, lines 46-54). -/
def SENTENCES : List String :=
  [ "Hello, how are you?"
  , "The weather is nice today."
  , "She sells seashells by the seashore."
  , "I would like a cup of coffee, please."
  , "The quick brown fox jumps over the lazy dog."
  , "Peter Piper picked a peck of pickled peppers."
  , "How much wood would a woodchuck chuck if a woodchuck could chuck wood?" ]

/-- Value of an ASCII digit character. -/
def digitVal (c : Char) : Nat := c.toNat - 48

/-- Digits of a Python int literal after the first one: ASCII digits with
single underscores allowed between digits. -/
def pyIntDigits : Nat → List Char → Option Nat
  | acc, [] => some acc
  | acc, '_' :: c :: cs =>
    if c.isDigit then pyIntDigits (acc * 10 + digitVal c) cs else none
  | acc, c :: cs =>
    if c.isDigit then pyIntDigits (acc * 10 + digitVal c) cs else none

/-- An unsigned Python int literal: one or more ASCII digits, single
underscores allowed between digits. -/
def pyNat : List Char → Option Nat
  | [] => none
  | c :: cs => if c.isDigit then pyIntDigits (digitVal c) cs else none

/-- The int(choice) conversion of line 239 on an already-stripped string:
an optional sign followed by digits, none on failure (ValueError). -/
def pyInt (s : String) : Option Int :=
  match s.toList with
  | '-' :: rest => (pyNat rest).map fun n => -(n : Int)
  | '+' :: rest => (pyNat rest).map fun n => (n : Int)
  | ds => (pyNat ds).map fun n => (n : Int)

/-- ASCII lowering of one character, as str.lower acts on the letters the
catalog menu can receive. -/
def lowerChar (c : Char) : Char :=
  if 'A' ≤ c ∧ c ≤ 'Z' then Char.ofNat (c.toNat + 32) else c

/-- The choice.lower() call of line 234. -/
def pyLower (s : String) : String := String.mk (s.data.map lowerChar)

/-- The input(...).strip() call of line 232: whitespace removed from both
ends. -/
def pyStrip (s : String) : String :=
  String.mk (((s.data.dropWhile Char.isWhitespace).reverse.dropWhile Char.isWhitespace).reverse)

/-- The quit test of line 234: the lowered choice is q, quit or exit. -/
def isQuitToken (s : String) : Bool :=
  pyLower s = "q" || pyLower s = "quit" || pyLower s = "exit"

/-- Controller states the loop body can end an iteration in: back at the
menu prompt, or out of the loop after a quit token. -/
inductive CtrlState where
  | SelectingSentence
  | Terminated
deriving DecidableEq

/-- A failed remote call (an httpx.HTTPError surfaced by a wrapper). -/
structure ServiceError where
  msg : String
deriving DecidableEq

/-- Outcomes of the external collaborators for one iteration: whether
tts_synthesize succeeds, whether record_audio finds the recording, and the
results of stt_transcribe and pronunciation_assess. -/
structure Oracles where
  synthOk : Bool
  recordOk : Bool
  sttResult : Except ServiceError TranscriptionInput
  assessResult : Except ServiceError AssessmentInput

/-- Observable trace of one pass through the loop body of main. -/
structure IterTrace where
  finalState : CtrlState
  selected : Option String
  inputErrorEmitted : Bool
  synthInvoked : Bool
  synthFailureLogged : Bool
  recordInvoked : Bool
  transcribeInvoked : Bool
  assessInvoked : Bool
  feedbackInvoked : Bool
  report : Option FeedbackReport
deriving DecidableEq

/-- Trace of an iteration that rejected the menu input (lines 242-244):
the error message is printed and the loop continues. -/
def inputErrorTrace : IterTrace :=
  { finalState := CtrlState.SelectingSentence
    selected := none
    inputErrorEmitted := true
    synthInvoked := false
    synthFailureLogged := false
    recordInvoked := false
    transcribeInvoked := false
    assessInvoked := false
    feedbackInvoked := false
    report := none }

/-- Trace of an iteration that saw a quit token (lines 234-236): the loop
breaks with no step invoked. -/
def quitTrace : IterTrace :=
  { finalState := CtrlState.Terminated
    selected := none
    inputErrorEmitted := false
    synthInvoked := false
    synthFailureLogged := false
    recordInvoked := false
    transcribeInvoked := false
    assessInvoked := false
    feedbackInvoked := false
    report := none }

/-- Trace of an iteration aborted because record_audio found no file
(lines 261-263): synthesis and recording ran, nothing downstream did. -/
def noRecordTrace (sentence : String) (synthOk : Bool) : IterTrace :=
  { finalState := CtrlState.SelectingSentence
    selected := some sentence
    inputErrorEmitted := false
    synthInvoked := true
    synthFailureLogged := !synthOk
    recordInvoked := true
    transcribeInvoked := false
    assessInvoked := false
    feedbackInvoked := false
    report := none }

/-- Trace of an iteration aborted by a transcription error (lines 267-271):
assessment and feedback are skipped. -/
def sttFailTrace (sentence : String) (synthOk : Bool) : IterTrace :=
  { finalState := CtrlState.SelectingSentence
    selected := some sentence
    inputErrorEmitted := false
    synthInvoked := true
    synthFailureLogged := !synthOk
    recordInvoked := true
    transcribeInvoked := true
    assessInvoked := false
    feedbackInvoked := false
    report := none }

/-- Trace of an iteration aborted by an assessment error (lines 275-279):
feedback is skipped. -/
def assessFailTrace (sentence : String) (synthOk : Bool) : IterTrace :=
  { finalState := CtrlState.SelectingSentence
    selected := some sentence
    inputErrorEmitted := false
    synthInvoked := true
    synthFailureLogged := !synthOk
    recordInvoked := true
    transcribeInvoked := true
    assessInvoked := true
    feedbackInvoked := false
    report := none }

/-- Trace of a complete iteration ending in print_feedback (line 282). -/
def successTrace (sentence : String) (synthOk : Bool) (rep : FeedbackReport) : IterTrace :=
  { finalState := CtrlState.SelectingSentence
    selected := some sentence
    inputErrorEmitted := false
    synthInvoked := true
    synthFailureLogged := !synthOk
    recordInvoked := true
    transcribeInvoked := true
    assessInvoked := true
    feedbackInvoked := true
    report := some rep }

/-- One pass through the while-loop body of main (lines 230-282), driven by
the raw menu input and the collaborator outcomes.  The input is stripped
(line 232); quit tokens break out of the loop (lines 234-236); a
non-numeric or out-of-range selection prints the range message and
continues (lines 238-244); otherwise the sentence is fetched (line 246),
synthesis runs with its failure only logged (lines 252-256), a missing
recording aborts the iteration (lines 261-263), a transcription error
aborts it (lines 267-271), an assessment error aborts it (lines 275-279),
and otherwise print_feedback runs (line 282). -/
def runIteration (raw : String) (o : Oracles) : IterTrace :=
  let choice := pyStrip raw
  if isQuitToken choice then quitTrace
  else
    match pyInt choice with
    | none => inputErrorTrace
    | some n =>
      let idx : Int := n - 1
      if idx < 0 ∨ (SENTENCES.length : Int) ≤ idx then inputErrorTrace
      else
        let sentence := SENTENCES.getD idx.toNat ""
        if !o.recordOk then noRecordTrace sentence o.synthOk
        else
          match o.sttResult with
          | Except.error _ => sttFailTrace sentence o.synthOk
          | Except.ok transcription =>
            match o.assessResult with
            | Except.error _ => assessFailTrace sentence o.synthOk
            | Except.ok assessment =>
              successTrace sentence o.synthOk (evaluate assessment transcription sentence)

/-!
Concrete sample inputs used by the witness theorems, including the
end-to-end scenario of the specification (overall 92, word fox with
phonemes f at 98 and ks at 55).
-/

/-- The fox word of the end-to-end scenario. -/
def foxWord : WordInput := ⟨some "fox", some 95, some [⟨some "f", some 98⟩, ⟨some "ks", some 55⟩]⟩

/-- The assessment of the end-to-end scenario. -/
def foxAssess : AssessmentInput := ⟨some 92, some [foxWord]⟩

/-- A sample transcription payload. -/
def tSample : TranscriptionInput := ⟨some "the quick brown fox"⟩

/-- A sample word with a flagged score of 59. -/
def wSample : WordInput := ⟨some "law", some 59, some []⟩

/-- A sample assessment holding only wSample. -/
def aSample : AssessmentInput := ⟨some 50, some [wSample]⟩

/-- A sample word with every score field missing. -/
def wMissing : WordInput := ⟨some "hollow", none, some [⟨some "h", none⟩]⟩

/-- Collaborator outcomes with a failing transcription call. -/
def oSttFail : Oracles := ⟨true, true, Except.error ⟨"boom"⟩, Except.ok foxAssess⟩

/-- Collaborator outcomes with a failing assessment call. -/
def oAssessFail : Oracles := ⟨true, true, Except.ok tSample, Except.error ⟨"boom"⟩⟩

/-- Collaborator outcomes with every call succeeding. -/
def oAllOk : Oracles := ⟨true, true, Except.ok tSample, Except.ok foxAssess⟩

/-- Collaborator outcomes with no recording produced. -/
def oNoRecord : Oracles := ⟨true, false, Except.ok tSample, Except.ok foxAssess⟩

/-!
Helper lemmas: the accumulating loops of print_feedback rewritten as maps,
filters and flat maps, so that membership and order can be reasoned about.
-/

/-- A fold appending one image per element is a map. -/
theorem foldl_append_singleton {α β : Type} (g : α → β) :
    ∀ (l : List α) (acc : List β),
      l.foldl (fun a w => a ++ [g w]) acc = acc ++ l.map g := by
  intro l
  induction l with
  | nil => intro acc; simp
  | cons x xs ih => intro acc; simp [ih]

/-- A fold appending a block per element is a flat map. -/
theorem foldl_append_block {α β : Type} (g : α → List β) :
    ∀ (l : List α) (acc : List β),
      l.foldl (fun a w => a ++ g w) acc = acc ++ l.flatMap g := by
  intro l
  induction l with
  | nil => intro acc; simp
  | cons x xs ih => intro acc; simp [ih]

/-- A fold conditionally appending an image per element is a map of a
filter. -/
theorem foldl_ite_append {α β : Type} (g : α → β) (p : α → Bool) :
    ∀ (l : List α) (acc : List β),
      l.foldl (fun a x => if p x then a ++ [g x] else a) acc
        = acc ++ (l.filter p).map g := by
  intro l
  induction l with
  | nil => intro acc; simp
  | cons x xs ih =>
    intro acc
    by_cases hx : p x = true
    · simp [hx, ih]
    · simp only [List.foldl_cons, List.filter_cons]
      rw [if_neg hx, ih]
      simp [hx]

/-- The inner loop of print_feedback keeps exactly the phonemes scored
below 60, in order, each paired with its word. -/
theorem wordWeaks_eq_filter_map (w : WordInput) :
    wordWeaks w
      = ((w.phonemes.getD []).filter (fun p => decide (p.score.getD 0 < 60))).map
          (fun p => (w.word.getD "", p.phoneme.getD "", p.score.getD 0)) := by
  unfold wordWeaks
  have h := foldl_ite_append
    (fun p : PhonemeInput => (w.word.getD "", p.phoneme.getD "", p.score.getD 0))
    (fun p : PhonemeInput => decide (p.score.getD 0 < 60))
    (w.phonemes.getD []) []
  simp only [List.nil_append] at h
  rw [← h]
  congr 1
  funext acc p
  by_cases hp : p.score.getD 0 < 60 <;> simp [hp]

/-- The per-word rows of print_feedback: every word in input order, paired
with the starred flag computed as score below 70. -/
theorem evaluate_perWord (a : AssessmentInput) (t : TranscriptionInput) (r : String) :
    (evaluate a t r).perWord
      = (a.words.getD []).map (fun w => (w, decide (w.score.getD 0 < 70))) := by
  unfold evaluate
  simp only []
  have h := foldl_append_singleton
    (fun w : WordInput => (w, decide (w.score.getD 0 < 70))) (a.words.getD []) []
  simpa using h

/-- The weak-phoneme list of print_feedback is the word-major,
phoneme-minor triple enumeration filtered to scores below 60. -/
theorem evaluate_weakPhonemes (a : AssessmentInput) (t : TranscriptionInput) (r : String) :
    (evaluate a t r).weakPhonemes
      = (allTriples (a.words.getD [])).filter (fun tr => decide (tr.2.2 < 60)) := by
  unfold evaluate
  simp only []
  have h := foldl_append_block wordWeaks (a.words.getD []) []
  rw [h]
  simp only [List.nil_append]
  unfold allTriples
  induction a.words.getD [] with
  | nil => simp
  | cons w ws ih =>
    simp only [List.flatMap_cons, List.filter_append, ih, wordWeaks_eq_filter_map]
    congr 1
    rw [List.filter_map]
    congr 1

/-- The Excellent band is exactly the scores of at least 90. -/
theorem gradeOf_excellent_iff (x : ℚ) : gradeOf x = Grade.Excellent ↔ 90 ≤ x := by
  unfold gradeOf
  split_ifs with h1 h2 h3 h4
  · exact iff_of_true rfl h1
  · exact iff_of_false (by decide) h1
  · exact iff_of_false (by decide) h1
  · exact iff_of_false (by decide) h1
  · exact iff_of_false (by decide) h1

/-- The Good band is exactly the scores in [75, 90). -/
theorem gradeOf_good_iff (x : ℚ) : gradeOf x = Grade.Good ↔ 75 ≤ x ∧ x < 90 := by
  unfold gradeOf
  split_ifs with h1 h2 h3 h4
  · exact iff_of_false (by decide) (by intro hc; linarith [hc.2])
  · exact iff_of_true rfl ⟨h2, not_le.mp h1⟩
  · exact iff_of_false (by decide) (by intro hc; exact h2 hc.1)
  · exact iff_of_false (by decide) (by intro hc; exact h2 hc.1)
  · exact iff_of_false (by decide) (by intro hc; exact h2 hc.1)

/-- The Fair band is exactly the scores in [60, 75). -/
theorem gradeOf_fair_iff (x : ℚ) : gradeOf x = Grade.Fair ↔ 60 ≤ x ∧ x < 75 := by
  unfold gradeOf
  split_ifs with h1 h2 h3 h4
  · exact iff_of_false (by decide) (by intro hc; linarith [hc.2])
  · exact iff_of_false (by decide) (by intro hc; linarith [hc.2])
  · exact iff_of_true rfl ⟨h3, not_le.mp h2⟩
  · exact iff_of_false (by decide) (by intro hc; exact h3 hc.1)
  · exact iff_of_false (by decide) (by intro hc; exact h3 hc.1)

/-- The NeedsWork band is exactly the scores in [40, 60). -/
theorem gradeOf_needsWork_iff (x : ℚ) : gradeOf x = Grade.NeedsWork ↔ 40 ≤ x ∧ x < 60 := by
  unfold gradeOf
  split_ifs with h1 h2 h3 h4
  · exact iff_of_false (by decide) (by intro hc; linarith [hc.2])
  · exact iff_of_false (by decide) (by intro hc; linarith [hc.2])
  · exact iff_of_false (by decide) (by intro hc; linarith [hc.2])
  · exact iff_of_true rfl ⟨h4, not_le.mp h3⟩
  · exact iff_of_false (by decide) (by intro hc; exact h4 hc.1)

/-- The KeepPracticing band is exactly the scores below 40. -/
theorem gradeOf_keepPracticing_iff (x : ℚ) : gradeOf x = Grade.KeepPracticing ↔ x < 40 := by
  unfold gradeOf
  split_ifs with h1 h2 h3 h4
  · exact iff_of_false (by decide) (by intro hc; linarith)
  · exact iff_of_false (by decide) (by intro hc; linarith)
  · exact iff_of_false (by decide) (by intro hc; linarith)
  · exact iff_of_false (by decide) (by intro hc; linarith)
  · exact iff_of_true rfl (not_le.mp h4)

/-- The harder-sentence tip is selected exactly for scores of at least 90. -/
theorem closingTipOf_harder_iff (x : ℚ) : closingTipOf x = harderTip ↔ 90 ≤ x := by
  unfold closingTipOf
  split_ifs with h1 h2
  · exact iff_of_true rfl h1
  · exact iff_of_false (by decide) h1
  · exact iff_of_false (by decide) h1

/-- The review-flagged-words tip is selected exactly for scores in [70, 90). -/
theorem closingTipOf_review_iff (x : ℚ) : closingTipOf x = reviewTip ↔ 70 ≤ x ∧ x < 90 := by
  unfold closingTipOf
  split_ifs with h1 h2
  · exact iff_of_false (by decide) (by intro hc; linarith [hc.2])
  · exact iff_of_true rfl ⟨h2, not_le.mp h1⟩
  · exact iff_of_false (by decide) (by intro hc; exact h2 hc.1)

/-- The slow-down tip is selected exactly for scores below 70. -/
theorem closingTipOf_slow_iff (x : ℚ) : closingTipOf x = slowTip ↔ x < 70 := by
  unfold closingTipOf
  split_ifs with h1 h2
  · exact iff_of_false (by decide) (by intro hc; linarith)
  · exact iff_of_false (by decide) (by intro hc; linarith)
  · exact iff_of_true rfl (not_le.mp h2)

/-- C1: the grade computed by the feedback engine is a total function of
the overall score given by descending, first-match-wins bands closed on
the lower bound: at least 90 is Excellent, at least 75 is Good, at least
60 is Fair, at least 40 is NeedsWork, anything else KeepPracticing; in
particular 90 maps to Excellent, 89.99 to Good, 75 to Good, 74.99 to
Fair, 60 to Fair, 59.99 to NeedsWork, 40 to NeedsWork and 39.99 to
KeepPracticing. -/
theorem grade_banding (x : ℚ) (a : AssessmentInput) (t : TranscriptionInput) (r : String) :
    ((evaluate a t r).grade = gradeOf (a.overallScore.getD 0))
    ∧ (gradeOf x = Grade.Excellent ↔ 90 ≤ x)
    ∧ (gradeOf x = Grade.Good ↔ 75 ≤ x ∧ x < 90)
    ∧ (gradeOf x = Grade.Fair ↔ 60 ≤ x ∧ x < 75)
    ∧ (gradeOf x = Grade.NeedsWork ↔ 40 ≤ x ∧ x < 60)
    ∧ (gradeOf x = Grade.KeepPracticing ↔ x < 40)
    ∧ gradeOf 90 = Grade.Excellent
    ∧ gradeOf (8999/100) = Grade.Good
    ∧ gradeOf 75 = Grade.Good
    ∧ gradeOf (7499/100) = Grade.Fair
    ∧ gradeOf 60 = Grade.Fair
    ∧ gradeOf (5999/100) = Grade.NeedsWork
    ∧ gradeOf 40 = Grade.NeedsWork
    ∧ gradeOf (3999/100) = Grade.KeepPracticing :=
  ⟨rfl, gradeOf_excellent_iff x, gradeOf_good_iff x, gradeOf_fair_iff x,
    gradeOf_needsWork_iff x, gradeOf_keepPracticing_iff x,
    by rw [gradeOf_excellent_iff], by rw [gradeOf_good_iff]; norm_num,
    by rw [gradeOf_good_iff]; norm_num, by rw [gradeOf_fair_iff]; norm_num,
    by rw [gradeOf_fair_iff]; norm_num, by rw [gradeOf_needsWork_iff]; norm_num,
    by rw [gradeOf_needsWork_iff]; norm_num, by rw [gradeOf_keepPracticing_iff]; norm_num⟩

/-- C2: the closing tip is selected by a three-tier policy on the overall
score with a 70 threshold independent of the grade bands: at least 90
gives the harder-sentence message, [70, 90) the review-flagged-words
message, below 70 the slow-down message; and there are scores in [70, 75)
whose grade is Fair while the tip is the review message. -/
theorem closing_tip_policy (x : ℚ) (a : AssessmentInput) (t : TranscriptionInput) (r : String) :
    ((evaluate a t r).closingTip = closingTipOf (a.overallScore.getD 0))
    ∧ (closingTipOf x = harderTip ↔ 90 ≤ x)
    ∧ (closingTipOf x = reviewTip ↔ 70 ≤ x ∧ x < 90)
    ∧ (closingTipOf x = slowTip ↔ x < 70)
    ∧ (∃ y : ℚ, 70 ≤ y ∧ y < 75 ∧ gradeOf y = Grade.Fair ∧ closingTipOf y = reviewTip) :=
  ⟨rfl, closingTipOf_harder_iff x, closingTipOf_review_iff x, closingTipOf_slow_iff x,
    ⟨72, by norm_num, by norm_num, by rw [gradeOf_fair_iff]; norm_num,
      by rw [closingTipOf_review_iff]; norm_num⟩⟩

/-- C3: a triple is in weakPhonemes exactly when it is one of the
assessment phoneme entries with score strictly below 60, and weakPhonemes
is an in-order sublist of the word-major, phoneme-minor enumeration of all
entries. -/
theorem weak_phoneme_membership (a : AssessmentInput) (t : TranscriptionInput) (r : String) :
    (∀ tr : String × String × ℚ,
        tr ∈ (evaluate a t r).weakPhonemes
          ↔ tr ∈ allTriples (a.words.getD []) ∧ tr.2.2 < 60)
    ∧ List.Sublist (evaluate a t r).weakPhonemes (allTriples (a.words.getD [])) := by
  rw [evaluate_weakPhonemes]
  constructor
  · intro tr
    rw [List.mem_filter]
    simp
  · exact List.filter_sublist _

/-- C4: the per-word rows are emitted in input order (their word parts are
the input word list itself), and a row is flagged exactly when its score
is strictly below 70. -/
theorem per_word_flagging (a : AssessmentInput) (t : TranscriptionInput) (r : String) :
    ((evaluate a t r).perWord).map Prod.fst = a.words.getD []
    ∧ ∀ (w : WordInput) (b : Bool),
        (w, b) ∈ (evaluate a t r).perWord → (b = true ↔ w.score.getD 0 < 70) := by
  rw [evaluate_perWord]
  constructor
  · rw [List.map_map]
    exact List.map_id'' (fun w => rfl) _
  · intro w b hmem
    rcases List.mem_map.mp hmem with ⟨w0, hw0, heq⟩
    have hw : w0 = w := congrArg Prod.fst heq
    have hb : decide (w0.score.getD 0 < 70) = b := congrArg Prod.snd heq
    subst hw
    rw [← hb]
    simp

/-- Witness for C4 at a concrete assessment: the sample word scored 59 is
flagged, and the row list is exactly that word in order. -/
theorem per_word_flagging_witness :
    (true = true ↔ wSample.score.getD 0 < 70)
    ∧ ((evaluate aSample tSample "x").perWord).map Prod.fst = [wSample] :=
  ⟨(per_word_flagging aSample tSample "x").2 wSample true (by decide),
    (per_word_flagging aSample tSample "x").1⟩

/-- C9: the feedback evaluation is deterministic and depends on nothing
outside its three inputs: two evaluations on identical inputs produce
identical reports, hence identical grades, per-word flags, weak phonemes
and closing tips. -/
theorem evaluate_deterministic (a₁ a₂ : AssessmentInput) (t₁ t₂ : TranscriptionInput)
    (r₁ r₂ : String) (ha : a₁ = a₂) (ht : t₁ = t₂) (hr : r₁ = r₂) :
    evaluate a₁ t₁ r₁ = evaluate a₂ t₂ r₂
    ∧ (evaluate a₁ t₁ r₁).grade = (evaluate a₂ t₂ r₂).grade
    ∧ (evaluate a₁ t₁ r₁).perWord = (evaluate a₂ t₂ r₂).perWord
    ∧ (evaluate a₁ t₁ r₁).weakPhonemes = (evaluate a₂ t₂ r₂).weakPhonemes
    ∧ (evaluate a₁ t₁ r₁).closingTip = (evaluate a₂ t₂ r₂).closingTip := by
  subst ha ht hr
  exact ⟨rfl, rfl, rfl, rfl, rfl⟩

/-- Witness for C9: two evaluations of the end-to-end scenario inputs give
the same report. -/
theorem evaluate_deterministic_witness :
    evaluate foxAssess tSample "ref" = evaluate foxAssess tSample "ref" :=
  (evaluate_deterministic foxAssess foxAssess tSample tSample "ref" "ref" rfl rfl rfl).1

/-- C10: the engine is total on payloads with missing fields: a missing
overall score is treated as 0 (grade KeepPracticing, slow-down tip), a
missing word list as empty (no rows, no weak phonemes), a missing word
score as 0 (the word is flagged), and a missing phoneme score as 0 (the
phoneme is weak). -/
theorem missing_fields_defaults (os : Option ℚ) (ws : List WordInput)
    (t : TranscriptionInput) (r : String) :
    ((evaluate ⟨none, some ws⟩ t r).overallScore = 0)
    ∧ ((evaluate ⟨none, some ws⟩ t r).grade = Grade.KeepPracticing)
    ∧ ((evaluate ⟨none, some ws⟩ t r).closingTip = slowTip)
    ∧ ((evaluate ⟨os, none⟩ t r).perWord = [])
    ∧ ((evaluate ⟨os, none⟩ t r).weakPhonemes = [])
    ∧ (∀ w : WordInput, w ∈ ws → w.score = none →
        (w, true) ∈ (evaluate ⟨os, some ws⟩ t r).perWord)
    ∧ (∀ (w : WordInput) (p : PhonemeInput),
        w ∈ ws → p ∈ w.phonemes.getD [] → p.score = none →
        (w.word.getD "", p.phoneme.getD "", (0 : ℚ)) ∈ (evaluate ⟨os, some ws⟩ t r).weakPhonemes) := by
  refine ⟨rfl, ?_, ?_, rfl, rfl, ?_, ?_⟩
  · exact (gradeOf_keepPracticing_iff 0).mpr (by norm_num)
  · exact (closingTipOf_slow_iff 0).mpr (by norm_num)
  · intro w hw hs
    rw [evaluate_perWord]
    refine List.mem_map.mpr ⟨w, hw, ?_⟩
    rw [hs]
    simp
  · intro w p hw hp hs
    rw [evaluate_weakPhonemes]
    refine List.mem_filter.mpr ⟨?_, by simp⟩
    unfold allTriples
    refine List.mem_flatMap.mpr ⟨w, hw, ?_⟩
    refine List.mem_map.mpr ⟨p, hp, ?_⟩
    rw [hs]
    rfl

/-- Witness for C10: in a one-word assessment whose word and phoneme
scores are absent, the word is flagged and the phoneme appears weak at
score 0. -/
theorem missing_fields_defaults_witness :
    (wMissing, true) ∈ (evaluate ⟨some 50, some [wMissing]⟩ tSample "x").perWord
    ∧ ("hollow", "h", (0 : ℚ)) ∈ (evaluate ⟨some 50, some [wMissing]⟩ tSample "x").weakPhonemes :=
  ⟨(missing_fields_defaults (some 50) [wMissing] tSample "x").2.2.2.2.2.1
      wMissing (by simp) rfl,
    (missing_fields_defaults (some 50) [wMissing] tSample "x").2.2.2.2.2.2
      wMissing ⟨some "h", none⟩ (by simp) (by simp [wMissing]) rfl⟩

/-- Every pass through the loop body ends in one of six exit traces:
quit, rejected input, missing recording, transcription failure,
assessment failure, or full success. -/
theorem runIteration_shape (s : String) (o : Oracles) :
    runIteration s o = quitTrace
    ∨ runIteration s o = inputErrorTrace
    ∨ ∃ sentence : String,
        (o.recordOk = false ∧ runIteration s o = noRecordTrace sentence o.synthOk)
        ∨ (∃ e, o.recordOk = true ∧ o.sttResult = Except.error e
            ∧ runIteration s o = sttFailTrace sentence o.synthOk)
        ∨ (∃ e tr, o.recordOk = true ∧ o.sttResult = Except.ok tr
            ∧ o.assessResult = Except.error e
            ∧ runIteration s o = assessFailTrace sentence o.synthOk)
        ∨ (∃ tr asm, o.recordOk = true ∧ o.sttResult = Except.ok tr
            ∧ o.assessResult = Except.ok asm
            ∧ runIteration s o = successTrace sentence o.synthOk (evaluate asm tr sentence)) := by
  unfold runIteration
  by_cases hq : isQuitToken (pyStrip s) = true
  · rw [if_pos hq]
    exact Or.inl rfl
  · rw [if_neg hq]
    cases hp : pyInt (pyStrip s) with
    | none => exact Or.inr (Or.inl rfl)
    | some n =>
      dsimp only
      by_cases hcond : (n - 1 < 0 ∨ (SENTENCES.length : Int) ≤ n - 1)
      · rw [if_pos hcond]
        exact Or.inr (Or.inl rfl)
      · rw [if_neg hcond]
        refine Or.inr (Or.inr ⟨SENTENCES.getD (n - 1).toNat "", ?_⟩)
        by_cases hrec : (!o.recordOk) = true
        · rw [if_pos hrec]
          exact Or.inl ⟨by simpa using hrec, rfl⟩
        · rw [if_neg hrec]
          have hrec' : o.recordOk = true := by simpa using hrec
          cases hstt : o.sttResult with
          | error e => exact Or.inr (Or.inl ⟨e, hrec', rfl, rfl⟩)
          | ok tr =>
            cases hass : o.assessResult with
            | error e =>
              exact Or.inr (Or.inr (Or.inl ⟨e, tr, hrec', rfl, rfl, rfl⟩))
            | ok asm =>
              exact Or.inr (Or.inr (Or.inr ⟨tr, asm, hrec', rfl, rfl, rfl⟩))

/-- C5: a transcription failure aborts the iteration back to the menu with
assessment and feedback skipped, and an assessment failure aborts it with
feedback skipped. -/
theorem service_error_aborts (s : String) (o : Oracles) :
    ((runIteration s o).transcribeInvoked = true →
      ∀ e : ServiceError, o.sttResult = Except.error e →
        (runIteration s o).assessInvoked = false
        ∧ (runIteration s o).feedbackInvoked = false
        ∧ (runIteration s o).finalState = CtrlState.SelectingSentence)
    ∧ ((runIteration s o).assessInvoked = true →
      ∀ e : ServiceError, o.assessResult = Except.error e →
        (runIteration s o).feedbackInvoked = false
        ∧ (runIteration s o).finalState = CtrlState.SelectingSentence) := by
  rcases runIteration_shape s o with h | h |
    ⟨sent, ⟨hrec, h⟩ | ⟨e, hrec, hstt, h⟩ | ⟨e, tr, hrec, hstt, hass, h⟩ |
      ⟨tr, asm, hrec, hstt, hass, h⟩⟩ <;>
    rw [h] <;>
    constructor <;>
    intro hinv e' he' <;>
    simp_all [quitTrace, inputErrorTrace, noRecordTrace, sttFailTrace,
      assessFailTrace, successTrace]

/-- C8: when the recording collaborator reports no clip at the expected
path, the iteration aborts back to the menu with transcription, assessment
and feedback all skipped. -/
theorem recording_missing_aborts (s : String) (o : Oracles) :
    (runIteration s o).recordInvoked = true → o.recordOk = false →
    (runIteration s o).transcribeInvoked = false
    ∧ (runIteration s o).assessInvoked = false
    ∧ (runIteration s o).feedbackInvoked = false
    ∧ (runIteration s o).finalState = CtrlState.SelectingSentence := by
  rcases runIteration_shape s o with h | h |
    ⟨sent, ⟨hrec, h⟩ | ⟨e, hrec, hstt, h⟩ | ⟨e, tr, hrec, hstt, hass, h⟩ |
      ⟨tr, asm, hrec, hstt, hass, h⟩⟩ <;>
    rw [h] <;> intro hinv hrf <;>
    simp_all [quitTrace, inputErrorTrace, noRecordTrace, sttFailTrace,
      assessFailTrace, successTrace]

/-- Witness for C5: with a failing transcription call the iteration skips
assessment and feedback and returns to the menu, and with a failing
assessment call it skips feedback and returns to the menu. -/
theorem service_error_aborts_witness :
    ((runIteration "1" oSttFail).assessInvoked = false
      ∧ (runIteration "1" oSttFail).feedbackInvoked = false
      ∧ (runIteration "1" oSttFail).finalState = CtrlState.SelectingSentence)
    ∧ ((runIteration "1" oAssessFail).feedbackInvoked = false
      ∧ (runIteration "1" oAssessFail).finalState = CtrlState.SelectingSentence) :=
  ⟨(service_error_aborts "1" oSttFail).1 (by decide) ⟨"boom"⟩ rfl,
    (service_error_aborts "1" oAssessFail).2 (by decide) ⟨"boom"⟩ rfl⟩

/-- Witness for C8: with no recording produced, the iteration invokes
nothing downstream and returns to the menu. -/
theorem recording_missing_aborts_witness :
    (runIteration "1" oNoRecord).transcribeInvoked = false
    ∧ (runIteration "1" oNoRecord).assessInvoked = false
    ∧ (runIteration "1" oNoRecord).feedbackInvoked = false
    ∧ (runIteration "1" oNoRecord).finalState = CtrlState.SelectingSentence :=
  recording_missing_aborts "1" oNoRecord (by decide) rfl

/-- C6: at the menu, a quit token terminates the session; a non-numeric or
out-of-range selection keeps the controller at the menu and emits the
input-error message without terminating; a valid selection retrieves
exactly the stored sentence at the selected internal index. -/
theorem menu_selection (s : String) (o : Oracles) :
    (isQuitToken (pyStrip s) = true → (runIteration s o).finalState = CtrlState.Terminated)
    ∧ (isQuitToken (pyStrip s) = false → pyInt (pyStrip s) = none →
        (runIteration s o).finalState = CtrlState.SelectingSentence
        ∧ (runIteration s o).inputErrorEmitted = true)
    ∧ (∀ n : Int, isQuitToken (pyStrip s) = false → pyInt (pyStrip s) = some n →
        (n - 1 < 0 ∨ (SENTENCES.length : Int) ≤ n - 1) →
        (runIteration s o).finalState = CtrlState.SelectingSentence
        ∧ (runIteration s o).inputErrorEmitted = true)
    ∧ (∀ n : Int, isQuitToken (pyStrip s) = false → pyInt (pyStrip s) = some n →
        0 ≤ n - 1 → n - 1 < (SENTENCES.length : Int) →
        (runIteration s o).selected = SENTENCES[(n - 1).toNat]?) := by
  refine ⟨?_, ?_, ?_, ?_⟩
  · intro hq
    unfold runIteration
    rw [if_pos hq]
    rfl
  · intro hq hp
    unfold runIteration
    rw [if_neg (by simp [hq]), hp]
    exact ⟨rfl, rfl⟩
  · intro n hq hp hcond
    unfold runIteration
    rw [if_neg (by simp [hq]), hp]
    dsimp only
    rw [if_pos hcond]
    exact ⟨rfl, rfl⟩
  · intro n hq hp h0 hlen
    have h7 : SENTENCES.length = 7 := rfl
    have hlt : (n - 1).toNat < SENTENCES.length := by omega
    unfold runIteration
    rw [if_neg (by simp [hq]), hp]
    dsimp only
    rw [if_neg (by omega)]
    obtain ⟨bs, br, bt, ba⟩ := o
    cases br <;> rcases bt with e | tr <;> rcases ba with e2 | asm <;>
      simp only [noRecordTrace, sttFailTrace, assessFailTrace, successTrace,
        List.getD_eq_getElem?_getD, List.getElem?_eq_getElem hlt] <;>
      simp

/-- Witness for C6: a quit token terminates; a non-numeric input and an
out-of-range number reprompt with the input error; selection 3 retrieves
the third stored sentence. -/
theorem menu_selection_witness :
    ((runIteration "Q" oAllOk).finalState = CtrlState.Terminated)
    ∧ ((runIteration "abc" oAllOk).finalState = CtrlState.SelectingSentence
        ∧ (runIteration "abc" oAllOk).inputErrorEmitted = true)
    ∧ ((runIteration "9" oAllOk).finalState = CtrlState.SelectingSentence
        ∧ (runIteration "9" oAllOk).inputErrorEmitted = true)
    ∧ ((runIteration "3" oAllOk).selected = SENTENCES[((3 : Int) - 1).toNat]?) :=
  ⟨(menu_selection "Q" oAllOk).1 (by decide),
    (menu_selection "abc" oAllOk).2.1 (by decide) (by decide),
    (menu_selection "9" oAllOk).2.2.1 9 (by decide) (by decide) (by decide),
    (menu_selection "3" oAllOk).2.2.2 3 (by decide) (by decide) (by decide) (by decide)⟩

/-- C7: a synthesis failure is non-fatal: every downstream observable of
the iteration (final state, selection, whether recording, transcription,
assessment and feedback run, and the report) is unchanged under any
synthesis outcome, and recording runs exactly when synthesis was invoked. -/
theorem synth_failure_nonfatal (s : String) (o : Oracles) (b : Bool) :
    ((runIteration s o).finalState = (runIteration s { o with synthOk := b }).finalState)
    ∧ ((runIteration s o).selected = (runIteration s { o with synthOk := b }).selected)
    ∧ ((runIteration s o).recordInvoked = (runIteration s { o with synthOk := b }).recordInvoked)
    ∧ ((runIteration s o).transcribeInvoked
        = (runIteration s { o with synthOk := b }).transcribeInvoked)
    ∧ ((runIteration s o).assessInvoked = (runIteration s { o with synthOk := b }).assessInvoked)
    ∧ ((runIteration s o).feedbackInvoked
        = (runIteration s { o with synthOk := b }).feedbackInvoked)
    ∧ ((runIteration s o).report = (runIteration s { o with synthOk := b }).report)
    ∧ ((runIteration s o).recordInvoked = (runIteration s o).synthInvoked) := by
  obtain ⟨bs, br, bt, ba⟩ := o
  unfold runIteration
  dsimp only
  by_cases hq : isQuitToken (pyStrip s) = true
  · simp [if_pos hq, quitTrace]
  · simp only [if_neg hq]
    cases hp : pyInt (pyStrip s) with
    | none => exact ⟨rfl, rfl, rfl, rfl, rfl, rfl, rfl, rfl⟩
    | some n =>
      dsimp only
      by_cases hcond : (n - 1 < 0 ∨ (SENTENCES.length : Int) ≤ n - 1)
      · rw [if_pos hcond]
        rw [if_pos hcond]
        simp [inputErrorTrace]
      · simp only [if_neg hcond]
        cases br <;> rcases bt with e | tr <;> rcases ba with e2 | asm <;>
          simp [noRecordTrace, sttFailTrace, assessFailTrace, successTrace]
